import Mathlib

/-!
# Client query utilities of `modules/core/02-client/client/utils`

A shallow embedding of `utils.go`: the router between the gRPC query client and
the proof-carrying store read (`QueryClientState`, `QueryConsensusState` and
their `ABCI` variants) and the two assemblers built on the node RPC
(`QueryTendermintHeader`, `QuerySelfConsensusState`).

Everything the Go functions reach through `clientCtx` or through other packages
is a field of a record passed explicitly (`Context`, `Node`, `Types`,
`Tendermint`).  Every function returns, next to the Go result tuple, the list
of calls it issued through the client context, in order.  The assemblers call
CometBFT functions that can panic, so their result is an `Outcome`: the Go
result tuple, or a panic.
-/

namespace Utils

/-- Byte slices (`[]byte`); the nil slice and the empty slice are both `[]`. -/
abbrev Bytes := List UInt8

/-- Go `error` values.  `ErrClientNotFound` and `ErrConsensusStateNotFound` are the
sentinels of `02-client/types`, `Wrap` is `errorsmod.Wrap`, `DecodeError` is the
decode failure of the state codec, `Backend` is any error raised by a collaborator. -/
inductive Error where
  | ErrClientNotFound
  | ErrConsensusStateNotFound
  | Wrap (err : Error) (description : String)
  | DecodeError
  | Backend (msg : String)
deriving DecidableEq, Repr

/-- The concrete `types.Height`: a revision number and a revision height (both `uint64`). -/
structure Height where
  RevisionNumber : Nat
  RevisionHeight : Nat
deriving DecidableEq, Repr

/-- The packed state `codectypes.Any`: a type identifier and the raw payload. -/
structure Any where
  TypeUrl : String
  Value : Bytes
deriving DecidableEq, Repr

/-- Response envelope `types.QueryClientStateResponse`. -/
structure QueryClientStateResponse where
  ClientState : Option Any
  Proof : Bytes
  ProofHeight : Height
deriving DecidableEq, Repr

/-- Response envelope `types.QueryConsensusStateResponse`. -/
structure QueryConsensusStateResponse where
  ConsensusState : Option Any
  Proof : Bytes
  ProofHeight : Height
deriving DecidableEq, Repr

/-- Request `types.QueryClientStateRequest`. -/
structure QueryClientStateRequest where
  ClientId : String
deriving DecidableEq, Repr

/-- Request `types.QueryConsensusStateRequest`. -/
structure QueryConsensusStateRequest where
  ClientId : String
  RevisionNumber : Nat
  RevisionHeight : Nat
  LatestHeight : Bool
deriving DecidableEq, Repr

/-- Modelled from the spec: `types.NewQueryClientStateResponse` is not among the sources;
the spec gives the envelope as `{state: PackedState, proof: bytes, provenHeight: Height}`. -/
def NewQueryClientStateResponse (clientStateAny : Any) (proof : Bytes) (height : Height) :
    QueryClientStateResponse :=
  { ClientState := some clientStateAny, Proof := proof, ProofHeight := height }

/-- Modelled from the spec: `types.NewQueryConsensusStateResponse` is not among the sources;
the spec gives the envelope as `{state: PackedState, proof: bytes, provenHeight: Height}`. -/
def NewQueryConsensusStateResponse (consensusStateAny : Any) (proof : Bytes) (height : Height) :
    QueryConsensusStateResponse :=
  { ConsensusState := some consensusStateAny, Proof := proof, ProofHeight := height }

/-- The commitment root `commitmenttypes.MerkleRoot`. -/
structure MerkleRoot where
  Hash : Bytes
deriving DecidableEq, Repr

/-- The ABCI `ResponseInfo` carried by the node status. -/
structure ResponseInfo where
  Data : String
  Version : String
  AppVersion : Nat
  LastBlockHeight : Int
  LastBlockAppHash : Bytes
deriving DecidableEq, Repr

/-- The RPC result `coretypes.ResultABCIInfo`. -/
structure ResultABCIInfo where
  Response : ResponseInfo
deriving DecidableEq, Repr

/-- The RPC result `coretypes.ResultValidators`. -/
structure ResultValidators (V : Type) where
  BlockHeight : Int
  Validators : List V
  Count : Int
  Total : Int
deriving DecidableEq, Repr

/-- A call issued through the client context: the proof-carrying store read, a decode
through the codec of the context's interface registry, a gRPC query, or a node RPC. -/
inductive Call where
  | QueryTendermintProof (key : Bytes)
  | UnmarshalClientState (bz : Bytes)
  | UnmarshalConsensusState (bz : Bytes)
  | ClientState (req : QueryClientStateRequest)
  | ConsensusState (req : QueryConsensusStateRequest)
  | GetNode
  | ABCIInfo
  | Commit (height : Int)
  | Validators (height : Int) (page : Int) (perPage : Int)
deriving DecidableEq, Repr

/-- The node RPC client returned by `clientCtx.GetNode()`.  `Commit` and `Validators`
receive their arguments by pointer in Go and do not write through them; a call that
returns a nil error returns a non-nil result. -/
structure Node (Cm V : Type) where
  ABCIInfo : Except Error ResultABCIInfo
  Commit : Int → Except Error Cm
  Validators : Int → Int → Int → Except Error (ResultValidators V)

/-- The part of `client.Context` the utilities use.  `Height` is the requested `int64`
height; `QueryTendermintProof` is `ibcclient.QueryTendermintProof(clientCtx, ·)`;
`UnmarshalClientState` and `UnmarshalConsensusState` are the `types.Unmarshal…` functions at the
proto codec of `clientCtx.InterfaceRegistry`; `ClientState` and `ConsensusState` are
the gRPC query client of `types.NewQueryClient(clientCtx)`, whose Go result pair is
kept as a pair. -/
structure Context (σ κ Cm V : Type) where
  Height : Int
  GetNode : Except Error (Node Cm V)
  QueryTendermintProof : Bytes → Except Error (Bytes × Bytes × Utils.Height)
  UnmarshalClientState : Bytes → Except Error σ
  UnmarshalConsensusState : Bytes → Except Error κ
  ClientState : QueryClientStateRequest → Option QueryClientStateResponse × Option Error
  ConsensusState :
    QueryConsensusStateRequest → Option QueryConsensusStateResponse × Option Error

/-- Functions of `24-host`, `02-client/types` and `23-commitment/types` the utilities call. -/
structure Types (σ κ : Type) where
  FullClientStateKey : String → Bytes
  FullConsensusStateKey : String → Height → Bytes
  PackClientState : σ → Except Error Any
  PackConsensusState : κ → Except Error Any
  NewMerkleRoot : Bytes → MerkleRoot

/-- Functions of the CometBFT types the assemblers call.  `Header` is the header pointer
embedded in the signed header of a commit result (`none` is nil); `Time` and `AppHash`
are the fields of that header which Go reads through the pointer as `commit.Time` and
`commit.AppHash`; `CommitToProto` is `ToProto` of the signed header.  `NewValidatorSet`
panics on validators it rejects (`none`), and `Hash` panics on a validator it cannot
encode (`none`); `ToProto` of a validator set reports failure as an error. -/
structure Tendermint (Cm Hd V VS PSH PVS T : Type) where
  Header : Cm → Option Hd
  Time : Hd → T
  AppHash : Hd → Bytes
  CommitToProto : Cm → PSH
  NewValidatorSet : List V → Option VS
  ValidatorSetToProto : VS → Except Error PVS
  ValidatorSetHash : VS → Option Bytes

/-- How a Go call ends: it returns its result tuple, or it panics. -/
inductive Outcome (α : Type) where
  | returned (result : α)
  | panicked
deriving DecidableEq, Repr

/-- The light-client header `ibctm.Header`; the Go zero value has every pointer nil. -/
structure Header (PSH PVS : Type) where
  SignedHeader : Option PSH
  ValidatorSet : Option PVS
  TrustedHeight : Height
  TrustedValidators : Option PVS
deriving DecidableEq, Repr

/-- The zero value `ibctm.Header{}`. -/
def Header.empty {PSH PVS : Type} : Header PSH PVS :=
  { SignedHeader := none, ValidatorSet := none, TrustedHeight := ⟨0, 0⟩,
    TrustedValidators := none }

/-- The consensus snapshot `ibctm.ConsensusState`. -/
structure ConsensusState (T : Type) where
  Timestamp : T
  Root : MerkleRoot
  NextValidatorsHash : Bytes
deriving DecidableEq, Repr

/-- The zero value `ibctm.ConsensusState{}`; `zeroTime` is the zero `time.Time`. -/
def ConsensusState.empty {T : Type} (zeroTime : T) : ConsensusState T :=
  { Timestamp := zeroTime, Root := ⟨[]⟩, NextValidatorsHash := [] }

/-- Two's-complement wrap-around of a mathematical integer into the `int64` range. -/
def wrapInt64 (x : Int) : Int := (x + 2 ^ 63) % 2 ^ 64 - 2 ^ 63

section Router

variable {σ κ Cm V : Type}

/-- The function `QueryClientStateABCI` of utils.go. -/
def QueryClientStateABCI (lib : Types σ κ) (clientCtx : Context σ κ Cm V) (clientID : String) :
    (Option QueryClientStateResponse × Option Error) × List Call :=
  let key := lib.FullClientStateKey clientID
  match clientCtx.QueryTendermintProof key with
  | .error err => ((none, some err), [.QueryTendermintProof key])
  | .ok (value, proofBz, proofHeight) =>
    -- check if client exists
    if value.length = 0 then
      ((none, some (.Wrap .ErrClientNotFound clientID)), [.QueryTendermintProof key])
    else
      match clientCtx.UnmarshalClientState value with
      | .error err =>
        ((none, some err), [.QueryTendermintProof key, .UnmarshalClientState value])
      | .ok clientState =>
        match lib.PackClientState clientState with
        | .error err =>
          ((none, some err), [.QueryTendermintProof key, .UnmarshalClientState value])
        | .ok anyClientState =>
          ((some (NewQueryClientStateResponse anyClientState proofBz proofHeight), none),
            [.QueryTendermintProof key, .UnmarshalClientState value])

/-- The function `QueryClientState` of utils.go. -/
def QueryClientState (lib : Types σ κ) (clientCtx : Context σ κ Cm V) (clientID : String)
    (prove : Bool) : (Option QueryClientStateResponse × Option Error) × List Call :=
  if prove then
    QueryClientStateABCI lib clientCtx clientID
  else
    let req : QueryClientStateRequest := { ClientId := clientID }
    (clientCtx.ClientState req, [.ClientState req])

/-- The function `QueryConsensusStateABCI` of utils.go. -/
def QueryConsensusStateABCI (lib : Types σ κ) (clientCtx : Context σ κ Cm V)
    (clientID : String) (height : Height) :
    (Option QueryConsensusStateResponse × Option Error) × List Call :=
  let key := lib.FullConsensusStateKey clientID height
  match clientCtx.QueryTendermintProof key with
  | .error err => ((none, some err), [.QueryTendermintProof key])
  | .ok (value, proofBz, proofHeight) =>
    -- check if consensus state exists
    if value.length = 0 then
      ((none, some (.Wrap .ErrConsensusStateNotFound clientID)), [.QueryTendermintProof key])
    else
      match clientCtx.UnmarshalConsensusState value with
      | .error err =>
        ((none, some err), [.QueryTendermintProof key, .UnmarshalConsensusState value])
      | .ok cs =>
        match lib.PackConsensusState cs with
        | .error err =>
          ((none, some err), [.QueryTendermintProof key, .UnmarshalConsensusState value])
        | .ok anyConsensusState =>
          ((some (NewQueryConsensusStateResponse anyConsensusState proofBz proofHeight), none),
            [.QueryTendermintProof key, .UnmarshalConsensusState value])

/-- The function `QueryConsensusState` of utils.go. -/
def QueryConsensusState (lib : Types σ κ) (clientCtx : Context σ κ Cm V) (clientID : String)
    (height : Height) (prove latestHeight : Bool) :
    (Option QueryConsensusStateResponse × Option Error) × List Call :=
  if prove then
    QueryConsensusStateABCI lib clientCtx clientID height
  else
    let req : QueryConsensusStateRequest :=
      { ClientId := clientID
        RevisionNumber := height.RevisionNumber
        RevisionHeight := height.RevisionHeight
        LatestHeight := latestHeight }
    (clientCtx.ConsensusState req, [.ConsensusState req])

end Router

section Assemblers

variable {σ κ Cm Hd V VS PSH PVS T : Type}

/-- The function `QueryTendermintHeader` of utils.go. -/
def QueryTendermintHeader (tm : Tendermint Cm Hd V VS PSH PVS T)
    (clientCtx : Context σ κ Cm V) :
    Outcome (Header PSH PVS × Int × Option Error) × List Call :=
  match clientCtx.GetNode with
  | .error err => (.returned (Header.empty, 0, some err), [.GetNode])
  | .ok node =>
    match node.ABCIInfo with
    | .error err => (.returned (Header.empty, 0, some err), [.GetNode, .ABCIInfo])
    | .ok info =>
      let height : Int :=
        if clientCtx.Height ≠ 0 then clientCtx.Height else info.Response.LastBlockHeight
      match node.Commit height with
      | .error err =>
        (.returned (Header.empty, 0, some err), [.GetNode, .ABCIInfo, .Commit height])
      | .ok commit =>
        let page : Int := 1
        let count : Int := 10000
        match node.Validators height page count with
        | .error err =>
          (.returned (Header.empty, 0, some err),
            [.GetNode, .ABCIInfo, .Commit height, .Validators height page count])
        | .ok validators =>
          let protoCommit := tm.CommitToProto commit
          match tm.NewValidatorSet validators.Validators with
          | none =>
            (.panicked, [.GetNode, .ABCIInfo, .Commit height, .Validators height page count])
          | some valset =>
            match tm.ValidatorSetToProto valset with
            | .error err =>
              (.returned (Header.empty, 0, some err),
                [.GetNode, .ABCIInfo, .Commit height, .Validators height page count])
            | .ok protoValset =>
              let header : Header PSH PVS :=
                { SignedHeader := some protoCommit
                  ValidatorSet := some protoValset
                  TrustedHeight := ⟨0, 0⟩
                  TrustedValidators := none }
              (.returned (header, height, none),
                [.GetNode, .ABCIInfo, .Commit height, .Validators height page count])

/-- The function `QuerySelfConsensusState` of utils.go.  The Go result is a pointer that
is never nil; `zeroTime` is the zero `time.Time` of the empty state.  Building the state
reads `commit.Time` and `commit.AppHash` through the header pointer of the commit and
calls `NewValidatorSet` and `Hash`, each of which may panic. -/
def QuerySelfConsensusState (lib : Types σ κ) (tm : Tendermint Cm Hd V VS PSH PVS T)
    (zeroTime : T) (clientCtx : Context σ κ Cm V) :
    Outcome (ConsensusState T × Int × Option Error) × List Call :=
  match clientCtx.GetNode with
  | .error err => (.returned (ConsensusState.empty zeroTime, 0, some err), [.GetNode])
  | .ok node =>
    match node.ABCIInfo with
    | .error err =>
      (.returned (ConsensusState.empty zeroTime, 0, some err), [.GetNode, .ABCIInfo])
    | .ok info =>
      let height : Int :=
        if clientCtx.Height ≠ 0 then clientCtx.Height else info.Response.LastBlockHeight
      match node.Commit height with
      | .error err =>
        (.returned (ConsensusState.empty zeroTime, 0, some err),
          [.GetNode, .ABCIInfo, .Commit height])
      | .ok commit =>
        let page : Int := 1
        let count : Int := 10000
        let nextHeight : Int := wrapInt64 (height + 1)
        match node.Validators nextHeight page count with
        | .error err =>
          (.returned (ConsensusState.empty zeroTime, 0, some err),
            [.GetNode, .ABCIInfo, .Commit height, .Validators nextHeight page count])
        | .ok nextVals =>
          match tm.Header commit with
          | none =>
            (.panicked,
              [.GetNode, .ABCIInfo, .Commit height, .Validators nextHeight page count])
          | some header =>
            match tm.NewValidatorSet nextVals.Validators with
            | none =>
              (.panicked,
                [.GetNode, .ABCIInfo, .Commit height, .Validators nextHeight page count])
            | some valset =>
              match tm.ValidatorSetHash valset with
              | none =>
                (.panicked,
                  [.GetNode, .ABCIInfo, .Commit height, .Validators nextHeight page count])
              | some hash =>
                let state : ConsensusState T :=
                  { Timestamp := tm.Time header
                    Root := lib.NewMerkleRoot (tm.AppHash header)
                    NextValidatorsHash := hash }
                (.returned (state, height, none),
                  [.GetNode, .ABCIInfo, .Commit height, .Validators nextHeight page count])

end Assemblers

section Examples

/-- A block header of the example node: block time and app hash. -/
structure ExampleHeader where
  time : Nat
  appHash : Bytes
deriving DecidableEq, Repr

/-- A commit result of the example node: a header pointer, possibly nil. -/
structure ExampleCommit where
  header : Option ExampleHeader
deriving DecidableEq, Repr

/-- An instance of the CometBFT functions over lists of voting powers.  A validator set
is rejected when a voting power is zero or occurs twice. -/
def exampleTendermint :
    Tendermint ExampleCommit ExampleHeader Nat (List Nat) ExampleCommit (List Nat) Nat :=
  { Header := fun c => c.header
    Time := fun h => h.time
    AppHash := fun h => h.appHash
    CommitToProto := fun c => c
    NewValidatorSet := fun vs =>
      if (vs.all fun p => decide (0 < p)) ∧ vs.Nodup then some vs else none
    ValidatorSetToProto := fun vs => .ok vs
    ValidatorSetHash := fun vs => some (vs.map fun p => p.toUInt8) }

/-- An instance of the key builders and packers; states are numbers. -/
def exampleTypes : Types Nat Nat :=
  { FullClientStateKey := fun id => 0 :: id.toList.map fun c => c.toNat.toUInt8
    FullConsensusStateKey := fun id h =>
      1 :: h.RevisionNumber.toUInt8 :: h.RevisionHeight.toUInt8 ::
        id.toList.map fun c => c.toNat.toUInt8
    PackClientState := fun n => .ok { TypeUrl := "client", Value := [n.toUInt8] }
    PackConsensusState := fun n => .ok { TypeUrl := "consensus", Value := [n.toUInt8] }
    NewMerkleRoot := fun h => { Hash := h } }

/-- A node whose latest block is `latest` and which serves commits and validator sets for
every height up to `available`. -/
def exampleNode (latest available : Int) : Node ExampleCommit Nat :=
  { ABCIInfo := .ok { Response :=
      { Data := "app", Version := "1", AppVersion := 1, LastBlockHeight := latest,
        LastBlockAppHash := [] } }
    Commit := fun h =>
      if h ≤ available then
        .ok { header := some { time := h.toNat, appHash := [h.toNat.toUInt8] } }
      else .error (.Backend "commit: height not available")
    Validators := fun h _ _ =>
      if h ≤ available then
        .ok { BlockHeight := h, Validators := [h.natAbs, 1], Count := 2, Total := 2 }
      else .error (.Backend "validators: height not available") }

/-- A client context over `exampleNode`.  Its store holds the two-byte value `[10, 20]`
with proof `[7, 7]` at proven height 42 under the client-state key of client `a` and under
the consensus-state key of client `a` at height `(0, 5)`, and nothing elsewhere.  Its gRPC
service answers with a response that carries a proof. -/
def exampleContext (height latest available : Int) : Context Nat Nat ExampleCommit Nat :=
  { Height := height
    GetNode := .ok (exampleNode latest available)
    QueryTendermintProof := fun key =>
      if key = [0, 97] ∨ key = [1, 0, 5, 97] then .ok ([10, 20], [7, 7], ⟨0, 42⟩)
      else .ok ([], [9], ⟨0, 42⟩)
    UnmarshalClientState := fun bz =>
      if bz.length = 2 then .ok bz.length else .error .DecodeError
    UnmarshalConsensusState := fun bz =>
      if bz.length = 2 then .ok (bz.length + 1) else .error .DecodeError
    ClientState := fun req =>
      (some { ClientState := some { TypeUrl := req.ClientId, Value := [2] }
              Proof := [171]
              ProofHeight := ⟨0, 42⟩ }, none)
    ConsensusState := fun req =>
      (some { ConsensusState := some { TypeUrl := req.ClientId, Value := [3] }
              Proof := [171]
              ProofHeight := ⟨req.RevisionNumber, req.RevisionHeight⟩ }, none) }

/-- The example context over a node whose status call fails. -/
def statusFailingContext (height : Int) : Context Nat Nat ExampleCommit Nat :=
  { exampleContext height 100 100 with
    GetNode := .ok
      { exampleNode 100 100 with ABCIInfo := .error (.Backend "abci_info: unavailable") } }

/-- The example context over a node that serves, at every height, a validator with voting
power zero. -/
def zeroPowerContext (height : Int) : Context Nat Nat ExampleCommit Nat :=
  { exampleContext height 100 100 with
    GetNode := .ok
      { exampleNode 100 100 with
        Validators := fun h _ _ =>
          .ok { BlockHeight := h, Validators := [5, 0], Count := 2, Total := 2 } } }

/-- The example context over a node whose commit results carry a nil header. -/
def nilHeaderContext (height : Int) : Context Nat Nat ExampleCommit Nat :=
  { exampleContext height 100 100 with
    GetNode := .ok { exampleNode 100 100 with Commit := fun _ => .ok { header := none } } }

/-- Decoder of the example wrapper codec.  The stored form of a state is the marshalled
interface `[10, 1, t, 18, 2, 8, n]`: a wrapper that carries the one-byte type identifier
`t` in field 1 and the payload `[8, n]` in field 2; the payload encodes a message whose
only field is the number `n`.  Decoding strips the wrapper, checks the type identifier and
decodes the payload. -/
def wrapperUnmarshal (typeTag : UInt8) (bz : Bytes) : Except Error Nat :=
  match bz with
  | [a, b, t, c, d, e, n] =>
    if a = 10 ∧ b = 1 ∧ t = typeTag ∧ c = 18 ∧ d = 2 ∧ e = 8 then .ok n.toNat
    else .error .DecodeError
  | _ => .error .DecodeError

/-- The key builders of `exampleTypes` with the packers of the example wrapper codec:
packing encodes the message again and names its type. -/
def wrapperTypes : Types Nat Nat :=
  { exampleTypes with
    PackClientState := fun n => .ok { TypeUrl := "/client", Value := [8, n.toUInt8] }
    PackConsensusState := fun n => .ok { TypeUrl := "/consensus", Value := [8, n.toUInt8] } }

/-- A client context over the example wrapper codec.  Its store holds the marshalled
client state `[10, 1, 1, 18, 2, 8, 5]` of client `a` and the marshalled consensus state
`[10, 1, 2, 18, 2, 8, 6]` of client `a` at height `(0, 5)`, both with proof `[7, 7]` at
proven height 42. -/
def wrapperContext : Context Nat Nat ExampleCommit Nat :=
  { exampleContext 0 100 100 with
    QueryTendermintProof := fun key =>
      if key = [0, 97] then .ok ([10, 1, 1, 18, 2, 8, 5], [7, 7], ⟨0, 42⟩)
      else if key = [1, 0, 5, 97] then .ok ([10, 1, 2, 18, 2, 8, 6], [7, 7], ⟨0, 42⟩)
      else .ok ([], [9], ⟨0, 42⟩)
    UnmarshalClientState := wrapperUnmarshal 1
    UnmarshalConsensusState := wrapperUnmarshal 2 }

end Examples

section RouterTheorems

variable {σ κ Cm V : Type}

/-- The proven client-state path issues no call other than the store read and the decode. -/
theorem QueryClientStateABCI_calls (lib : Types σ κ) (clientCtx : Context σ κ Cm V)
    (clientID : String) (c : Call) (hc : c ∈ (QueryClientStateABCI lib clientCtx clientID).2) :
    (∃ key, c = .QueryTendermintProof key) ∨ (∃ bz, c = .UnmarshalClientState bz) := by
  unfold QueryClientStateABCI at hc
  dsimp only at hc
  split at hc
  · simp at hc; exact Or.inl ⟨_, hc⟩
  · split at hc
    · simp at hc; exact Or.inl ⟨_, hc⟩
    · split at hc
      · simp at hc; rcases hc with h | h
        · exact Or.inl ⟨_, h⟩
        · exact Or.inr ⟨_, h⟩
      · split at hc <;>
        · simp at hc; rcases hc with h | h
          · exact Or.inl ⟨_, h⟩
          · exact Or.inr ⟨_, h⟩

/-- The proven consensus-state path issues no call other than the store read and the decode. -/
theorem QueryConsensusStateABCI_calls (lib : Types σ κ) (clientCtx : Context σ κ Cm V)
    (clientID : String) (height : Height) (c : Call)
    (hc : c ∈ (QueryConsensusStateABCI lib clientCtx clientID height).2) :
    (∃ key, c = .QueryTendermintProof key) ∨ (∃ bz, c = .UnmarshalConsensusState bz) := by
  unfold QueryConsensusStateABCI at hc
  dsimp only at hc
  split at hc
  · simp at hc; exact Or.inl ⟨_, hc⟩
  · split at hc
    · simp at hc; exact Or.inl ⟨_, hc⟩
    · split at hc
      · simp at hc; rcases hc with h | h
        · exact Or.inl ⟨_, h⟩
        · exact Or.inr ⟨_, h⟩
      · split at hc <;>
        · simp at hc; rcases hc with h | h
          · exact Or.inl ⟨_, h⟩
          · exact Or.inr ⟨_, h⟩

/-- C1: when the proof-carrying read succeeds with an empty value, `QueryClientStateABCI`
returns a nil response with `ErrClientNotFound` wrapping the client identifier and
`QueryConsensusStateABCI` returns a nil response with `ErrConsensusStateNotFound` wrapping
the client identifier; in both cases the store read is the only call issued, so the codec
is not asked to decode. -/
theorem abci_empty_value_is_not_found (lib : Types σ κ) (clientCtx : Context σ κ Cm V)
    (clientID : String) (height : Height) (proofBz : Bytes) (proofHeight : Height) :
    (clientCtx.QueryTendermintProof (lib.FullClientStateKey clientID)
        = .ok ([], proofBz, proofHeight) →
      QueryClientStateABCI lib clientCtx clientID
        = ((none, some (.Wrap .ErrClientNotFound clientID)),
            [.QueryTendermintProof (lib.FullClientStateKey clientID)])) ∧
    (clientCtx.QueryTendermintProof (lib.FullConsensusStateKey clientID height)
        = .ok ([], proofBz, proofHeight) →
      QueryConsensusStateABCI lib clientCtx clientID height
        = ((none, some (.Wrap .ErrConsensusStateNotFound clientID)),
            [.QueryTendermintProof (lib.FullConsensusStateKey clientID height)])) := by
  constructor
  · intro h
    simp [QueryClientStateABCI, h]
  · intro h
    simp [QueryConsensusStateABCI, h]

/-- Witness of C1: client `b` is absent from the example store. -/
theorem abci_empty_value_is_not_found_witness :
    QueryClientStateABCI exampleTypes (exampleContext 0 100 100) "b"
        = ((none, some (.Wrap .ErrClientNotFound "b")), [.QueryTendermintProof [0, 98]]) ∧
    QueryConsensusStateABCI exampleTypes (exampleContext 0 100 100) "b" ⟨0, 5⟩
        = ((none, some (.Wrap .ErrConsensusStateNotFound "b")),
            [.QueryTendermintProof [1, 0, 5, 98]]) :=
  ⟨(abci_empty_value_is_not_found exampleTypes (exampleContext 0 100 100) "b" ⟨0, 5⟩ [9]
      ⟨0, 42⟩).1 rfl,
   (abci_empty_value_is_not_found exampleTypes (exampleContext 0 100 100) "b" ⟨0, 5⟩ [9]
      ⟨0, 42⟩).2 rfl⟩

/-- C2: when the proof-carrying read returns a non-empty value `value` with proof `proofBz`
at height `proofHeight`, and decoding `value` and packing the decoded state succeed, the
proven query returns, without error, the response whose state is the packed decoded
state, whose proof is `proofBz` and whose proven height is `proofHeight`; this holds for
`QueryClientStateABCI` and for `QueryConsensusStateABCI`. -/
theorem abci_found_returns_state_proof_height (lib : Types σ κ)
    (clientCtx : Context σ κ Cm V) (clientID : String) (height : Height)
    (value proofBz : Bytes) (proofHeight : Height) (packed : Any) (hvalue : value ≠ []) :
    (∀ clientState : σ,
      clientCtx.QueryTendermintProof (lib.FullClientStateKey clientID)
          = .ok (value, proofBz, proofHeight) →
      clientCtx.UnmarshalClientState value = .ok clientState →
      lib.PackClientState clientState = .ok packed →
      (QueryClientStateABCI lib clientCtx clientID).1
        = (some { ClientState := some packed, Proof := proofBz, ProofHeight := proofHeight },
            none)) ∧
    (∀ cs : κ,
      clientCtx.QueryTendermintProof (lib.FullConsensusStateKey clientID height)
          = .ok (value, proofBz, proofHeight) →
      clientCtx.UnmarshalConsensusState value = .ok cs →
      lib.PackConsensusState cs = .ok packed →
      (QueryConsensusStateABCI lib clientCtx clientID height).1
        = (some { ConsensusState := some packed, Proof := proofBz,
                  ProofHeight := proofHeight }, none)) := by
  constructor
  · intro clientState h hdec hpack
    simp [QueryClientStateABCI, h, hvalue, hdec, hpack, NewQueryClientStateResponse]
  · intro cs h hdec hpack
    simp [QueryConsensusStateABCI, h, hvalue, hdec, hpack, NewQueryConsensusStateResponse]

/-- Witness of C2: the example store holds `[10, 20]` with proof `[7, 7]` at height 42. -/
theorem abci_found_returns_state_proof_height_witness :
    (QueryClientStateABCI exampleTypes (exampleContext 0 100 100) "a").1
      = (some { ClientState := some ⟨"client", [2]⟩, Proof := [7, 7], ProofHeight := ⟨0, 42⟩ },
          none) ∧
    (QueryConsensusStateABCI exampleTypes (exampleContext 0 100 100) "a" ⟨0, 5⟩).1
      = (some { ConsensusState := some ⟨"consensus", [3]⟩, Proof := [7, 7],
                ProofHeight := ⟨0, 42⟩ }, none) :=
  ⟨(abci_found_returns_state_proof_height exampleTypes (exampleContext 0 100 100) "a" ⟨0, 5⟩
      [10, 20] [7, 7] ⟨0, 42⟩ ⟨"client", [2]⟩ (by decide)).1 2 rfl rfl rfl,
   (abci_found_returns_state_proof_height exampleTypes (exampleContext 0 100 100) "a" ⟨0, 5⟩
      [10, 20] [7, 7] ⟨0, 42⟩ ⟨"consensus", [3]⟩ (by decide)).2 3 rfl rfl rfl⟩

/-- C7: with `prove = true` the routers return exactly what the `ABCI` functions return and
issue no gRPC query; with `prove = false` they return exactly the result pair of a single
gRPC query, `ClientState` for the client identifier or `ConsensusState` carrying the client
identifier, the revision number and revision height of the height and the latest-height
flag, and that query is the only call they issue, so no store read happens and a failure of
the selected path is returned as it is. -/
theorem query_path_selection (lib : Types σ κ) (clientCtx : Context σ κ Cm V)
    (clientID : String) (height : Height) (latestHeight : Bool) :
    (QueryClientState lib clientCtx clientID true = QueryClientStateABCI lib clientCtx clientID ∧
      ∀ c ∈ (QueryClientState lib clientCtx clientID true).2,
        (∀ req, c ≠ .ClientState req) ∧ (∀ req, c ≠ .ConsensusState req)) ∧
    QueryClientState lib clientCtx clientID false
      = (clientCtx.ClientState { ClientId := clientID },
          [.ClientState { ClientId := clientID }]) ∧
    (QueryConsensusState lib clientCtx clientID height true latestHeight
        = QueryConsensusStateABCI lib clientCtx clientID height ∧
      ∀ c ∈ (QueryConsensusState lib clientCtx clientID height true latestHeight).2,
        (∀ req, c ≠ .ClientState req) ∧ (∀ req, c ≠ .ConsensusState req)) ∧
    QueryConsensusState lib clientCtx clientID height false latestHeight
      = (clientCtx.ConsensusState
            { ClientId := clientID, RevisionNumber := height.RevisionNumber,
              RevisionHeight := height.RevisionHeight, LatestHeight := latestHeight },
          [.ConsensusState
            { ClientId := clientID, RevisionNumber := height.RevisionNumber,
              RevisionHeight := height.RevisionHeight, LatestHeight := latestHeight }]) := by
  refine ⟨⟨by simp [QueryClientState], ?_⟩, by simp [QueryClientState],
    ⟨by simp [QueryConsensusState], ?_⟩, by simp [QueryConsensusState]⟩
  · intro c hc
    have hc2 : c ∈ (QueryClientStateABCI lib clientCtx clientID).2 := by
      simpa [QueryClientState] using hc
    rcases QueryClientStateABCI_calls lib clientCtx clientID c hc2 with ⟨k, rfl⟩ | ⟨b, rfl⟩ <;>
      simp
  · intro c hc
    have hc2 : c ∈ (QueryConsensusStateABCI lib clientCtx clientID height).2 := by
      simpa [QueryConsensusState] using hc
    rcases QueryConsensusStateABCI_calls lib clientCtx clientID height c hc2 with
      ⟨k, rfl⟩ | ⟨b, rfl⟩ <;> simp

/-- Counterexample to C8 as stated: the gRPC service of the example context answers with
proof bytes `[171]` and a proven height, and both unproven queries succeed with exactly
these non-empty proof fields. -/
theorem unproven_result_with_proof_fields :
    (QueryClientState exampleTypes (exampleContext 0 100 100) "a" false).1
      = (some { ClientState := some ⟨"a", [2]⟩, Proof := [171], ProofHeight := ⟨0, 42⟩ },
          none) ∧
    (QueryConsensusState exampleTypes (exampleContext 0 100 100) "a" ⟨0, 5⟩ false false).1
      = (some { ConsensusState := some ⟨"a", [3]⟩, Proof := [171], ProofHeight := ⟨0, 5⟩ },
          none) := by
  constructor <;> rfl

/-- C8, amended: on the unproven path every successful result of `QueryClientState` and of
`QueryConsensusState` is the response of the gRPC service, unchanged, so its proof bytes
and proven height are those the service responded with. -/
theorem unproven_result_has_remote_proof_fields (lib : Types σ κ)
    (clientCtx : Context σ κ Cm V) (clientID : String) (height : Height)
    (latestHeight : Bool) :
    (∀ resp, (QueryClientState lib clientCtx clientID false).1 = (some resp, none) →
      ∃ remote, clientCtx.ClientState { ClientId := clientID } = (some remote, none) ∧
        resp = remote ∧ resp.Proof = remote.Proof ∧ resp.ProofHeight = remote.ProofHeight) ∧
    (∀ resp,
      (QueryConsensusState lib clientCtx clientID height false latestHeight).1
        = (some resp, none) →
      ∃ remote,
        clientCtx.ConsensusState
          { ClientId := clientID, RevisionNumber := height.RevisionNumber,
            RevisionHeight := height.RevisionHeight, LatestHeight := latestHeight }
          = (some remote, none) ∧
        resp = remote ∧ resp.Proof = remote.Proof ∧ resp.ProofHeight = remote.ProofHeight) := by
  constructor
  · intro resp h
    exact ⟨resp, by simpa [QueryClientState] using h, rfl, rfl, rfl⟩
  · intro resp h
    exact ⟨resp, by simpa [QueryConsensusState] using h, rfl, rfl, rfl⟩

/-- Witness of C8, amended: the successful unproven queries of the example context return
the responses of its gRPC service. -/
theorem unproven_result_has_remote_proof_fields_witness :
    (∃ remote, (exampleContext 0 100 100).ClientState { ClientId := "a" } = (some remote, none) ∧
      ({ ClientState := some ⟨"a", [2]⟩, Proof := [171], ProofHeight := ⟨0, 42⟩ } :
          QueryClientStateResponse) = remote ∧
      [171] = remote.Proof ∧ (⟨0, 42⟩ : Height) = remote.ProofHeight) ∧
    (∃ remote,
      (exampleContext 0 100 100).ConsensusState
          { ClientId := "a", RevisionNumber := 0, RevisionHeight := 5, LatestHeight := false }
        = (some remote, none) ∧
      ({ ConsensusState := some ⟨"a", [3]⟩, Proof := [171], ProofHeight := ⟨0, 5⟩ } :
          QueryConsensusStateResponse) = remote ∧
      [171] = remote.Proof ∧ (⟨0, 5⟩ : Height) = remote.ProofHeight) :=
  ⟨(unproven_result_has_remote_proof_fields exampleTypes (exampleContext 0 100 100) "a"
      ⟨0, 5⟩ false).1 _ rfl,
   (unproven_result_has_remote_proof_fields exampleTypes (exampleContext 0 100 100) "a"
      ⟨0, 5⟩ false).2 _ rfl⟩

end RouterTheorems

section AssemblerTheorems

variable {σ κ Cm Hd V VS PSH PVS T : Type}

/-- Adding one to an `int64` below the maximum does not wrap. -/
theorem wrapInt64_succ (h : Int) (hlo : -(2 ^ 63) ≤ h) (hhi : h < 2 ^ 63 - 1) :
    wrapInt64 (h + 1) = h + 1 := by
  unfold wrapInt64
  have e : (h + 1 + 2 ^ 63) % 2 ^ 64 = h + 1 + 2 ^ 63 :=
    Int.emod_eq_of_lt (by omega) (by omega)
  rw [e]
  omega

/-- The calls of `QueryTendermintHeader` once the node and its status are available: the
commit is fetched at the resolved height and at no other. -/
theorem QueryTendermintHeader_commit (tm : Tendermint Cm Hd V VS PSH PVS T)
    (clientCtx : Context σ κ Cm V) (node : Node Cm V) (info : ResultABCIInfo)
    (hnode : clientCtx.GetNode = .ok node) (hinfo : node.ABCIInfo = .ok info) (h : Int) :
    Call.Commit h ∈ (QueryTendermintHeader tm clientCtx).2 ↔
      h = if clientCtx.Height ≠ 0 then clientCtx.Height else info.Response.LastBlockHeight := by
  unfold QueryTendermintHeader
  simp only [hnode, hinfo]
  repeat' split
  all_goals simp [eq_comm]

/-- A return of `QueryTendermintHeader` without error carries the resolved height. -/
theorem QueryTendermintHeader_height (tm : Tendermint Cm Hd V VS PSH PVS T)
    (clientCtx : Context σ κ Cm V) (node : Node Cm V) (info : ResultABCIInfo)
    (hnode : clientCtx.GetNode = .ok node) (hinfo : node.ABCIInfo = .ok info)
    (header : Header PSH PVS) (h : Int)
    (hok : (QueryTendermintHeader tm clientCtx).1 = .returned (header, h, none)) :
    h = if clientCtx.Height ≠ 0 then clientCtx.Height else info.Response.LastBlockHeight := by
  unfold QueryTendermintHeader at hok
  simp only [hnode, hinfo] at hok
  repeat' split at hok
  all_goals simp at hok
  all_goals simp_all

/-- The calls of `QuerySelfConsensusState` once the node and its status are available: the
commit is fetched at the resolved height and at no other. -/
theorem QuerySelfConsensusState_commit (lib : Types σ κ)
    (tm : Tendermint Cm Hd V VS PSH PVS T)
    (zeroTime : T) (clientCtx : Context σ κ Cm V) (node : Node Cm V) (info : ResultABCIInfo)
    (hnode : clientCtx.GetNode = .ok node) (hinfo : node.ABCIInfo = .ok info) (h : Int) :
    Call.Commit h ∈ (QuerySelfConsensusState lib tm zeroTime clientCtx).2 ↔
      h = if clientCtx.Height ≠ 0 then clientCtx.Height else info.Response.LastBlockHeight := by
  unfold QuerySelfConsensusState
  simp only [hnode, hinfo]
  repeat' split
  all_goals simp [eq_comm]

/-- A return of `QuerySelfConsensusState` without error carries the resolved height. -/
theorem QuerySelfConsensusState_height (lib : Types σ κ)
    (tm : Tendermint Cm Hd V VS PSH PVS T) (zeroTime : T)
    (clientCtx : Context σ κ Cm V) (node : Node Cm V) (info : ResultABCIInfo)
    (hnode : clientCtx.GetNode = .ok node) (hinfo : node.ABCIInfo = .ok info)
    (state : ConsensusState T) (h : Int)
    (hok : (QuerySelfConsensusState lib tm zeroTime clientCtx).1
      = .returned (state, h, none)) :
    h = if clientCtx.Height ≠ 0 then clientCtx.Height else info.Response.LastBlockHeight := by
  unfold QuerySelfConsensusState at hok
  simp only [hnode, hinfo] at hok
  repeat' split at hok
  all_goals simp at hok
  all_goals simp_all

/-- The result of `QueryTendermintHeader` when every step succeeds at the resolved
height. -/
theorem QueryTendermintHeader_success (tm : Tendermint Cm Hd V VS PSH PVS T)
    (clientCtx : Context σ κ Cm V) (node : Node Cm V) (info : ResultABCIInfo) (commit : Cm)
    (validators : ResultValidators V) (valset : VS) (protoValset : PVS) (H : Int)
    (hnode : clientCtx.GetNode = .ok node) (hinfo : node.ABCIInfo = .ok info)
    (hH : H = if clientCtx.Height ≠ 0 then clientCtx.Height
      else info.Response.LastBlockHeight)
    (hcommit : node.Commit H = .ok commit)
    (hvals : node.Validators H 1 10000 = .ok validators)
    (hset : tm.NewValidatorSet validators.Validators = some valset)
    (hproto : tm.ValidatorSetToProto valset = .ok protoValset) :
    QueryTendermintHeader tm clientCtx
      = (.returned ({ SignedHeader := some (tm.CommitToProto commit)
                      ValidatorSet := some protoValset
                      TrustedHeight := ⟨0, 0⟩
                      TrustedValidators := none }, H, none),
          [.GetNode, .ABCIInfo, .Commit H, .Validators H 1 10000]) := by
  subst hH
  unfold QueryTendermintHeader
  simp only [hnode, hinfo, hcommit, hvals, hset, hproto]

/-- The result of `QuerySelfConsensusState` when every step succeeds at the resolved
height; the validators are requested at the next `int64` height. -/
theorem QuerySelfConsensusState_success (lib : Types σ κ)
    (tm : Tendermint Cm Hd V VS PSH PVS T) (zeroTime : T) (clientCtx : Context σ κ Cm V)
    (node : Node Cm V) (info : ResultABCIInfo) (commit : Cm) (nextVals : ResultValidators V)
    (header : Hd) (valset : VS) (hash : Bytes) (H : Int)
    (hnode : clientCtx.GetNode = .ok node) (hinfo : node.ABCIInfo = .ok info)
    (hH : H = if clientCtx.Height ≠ 0 then clientCtx.Height
      else info.Response.LastBlockHeight)
    (hcommit : node.Commit H = .ok commit)
    (hvals : node.Validators (wrapInt64 (H + 1)) 1 10000 = .ok nextVals)
    (hheader : tm.Header commit = some header)
    (hset : tm.NewValidatorSet nextVals.Validators = some valset)
    (hhash : tm.ValidatorSetHash valset = some hash) :
    QuerySelfConsensusState lib tm zeroTime clientCtx
      = (.returned ({ Timestamp := tm.Time header
                      Root := lib.NewMerkleRoot (tm.AppHash header)
                      NextValidatorsHash := hash }, H, none),
          [.GetNode, .ABCIInfo, .Commit H, .Validators (wrapInt64 (H + 1)) 1 10000]) := by
  subst hH
  unfold QuerySelfConsensusState
  simp only [hnode, hinfo, hcommit, hvals, hheader, hset, hhash]

/-- C3: let `H` be the latest block height of the status when the requested height is 0,
and the requested height itself when it is not 0, whatever the latest height is.  Once the
node and its status are available, both assemblers fetch the commit at `H` and at no other
height; every return without error carries `H` as its height; and both do return `H`
without error when the remaining steps succeed at `H`. -/
theorem height_resolution (lib : Types σ κ) (tm : Tendermint Cm Hd V VS PSH PVS T)
    (zeroTime : T) (clientCtx : Context σ κ Cm V) (node : Node Cm V) (info : ResultABCIInfo)
    (H : Int)
    (hnode : clientCtx.GetNode = .ok node) (hinfo : node.ABCIInfo = .ok info)
    (hH : (clientCtx.Height = 0 ∧ H = info.Response.LastBlockHeight) ∨
      (clientCtx.Height ≠ 0 ∧ H = clientCtx.Height)) :
    (∀ h, Call.Commit h ∈ (QueryTendermintHeader tm clientCtx).2 ↔ h = H) ∧
    (∀ h, Call.Commit h ∈ (QuerySelfConsensusState lib tm zeroTime clientCtx).2 ↔ h = H) ∧
    (∀ header h, (QueryTendermintHeader tm clientCtx).1 = .returned (header, h, none) →
      h = H) ∧
    (∀ state h,
      (QuerySelfConsensusState lib tm zeroTime clientCtx).1 = .returned (state, h, none) →
      h = H) ∧
    (∀ commit validators valset protoValset,
      node.Commit H = .ok commit →
      node.Validators H 1 10000 = .ok validators →
      tm.NewValidatorSet validators.Validators = some valset →
      tm.ValidatorSetToProto valset = .ok protoValset →
      (QueryTendermintHeader tm clientCtx).1
        = .returned ({ SignedHeader := some (tm.CommitToProto commit)
                       ValidatorSet := some protoValset
                       TrustedHeight := ⟨0, 0⟩
                       TrustedValidators := none }, H, none)) ∧
    (∀ commit nextVals header valset hash,
      node.Commit H = .ok commit →
      node.Validators (wrapInt64 (H + 1)) 1 10000 = .ok nextVals →
      tm.Header commit = some header →
      tm.NewValidatorSet nextVals.Validators = some valset →
      tm.ValidatorSetHash valset = some hash →
      (QuerySelfConsensusState lib tm zeroTime clientCtx).1
        = .returned ({ Timestamp := tm.Time header
                       Root := lib.NewMerkleRoot (tm.AppHash header)
                       NextValidatorsHash := hash }, H, none)) := by
  have hres : H = if clientCtx.Height ≠ 0 then clientCtx.Height
      else info.Response.LastBlockHeight := by
    rcases hH with ⟨h0, hl⟩ | ⟨h0, hl⟩ <;> simp [h0, hl]
  refine ⟨fun h => ?_, fun h => ?_, fun header h hok => ?_, fun state h hok => ?_, ?_, ?_⟩
  · rw [QueryTendermintHeader_commit tm clientCtx node info hnode hinfo h, hres]
  · rw [QuerySelfConsensusState_commit lib tm zeroTime clientCtx node info hnode hinfo h,
      hres]
  · rw [QueryTendermintHeader_height tm clientCtx node info hnode hinfo header h hok, hres]
  · rw [QuerySelfConsensusState_height lib tm zeroTime clientCtx node info hnode hinfo
      state h hok, hres]
  · intro commit validators valset protoValset hcommit hvals hset hproto
    rw [QueryTendermintHeader_success tm clientCtx node info commit validators valset
      protoValset H hnode hinfo hres hcommit hvals hset hproto]
  · intro commit nextVals header valset hash hcommit hvals hheader hset hhash
    rw [QuerySelfConsensusState_success lib tm zeroTime clientCtx node info commit nextVals
      header valset hash H hnode hinfo hres hcommit hvals hheader hset hhash]

/-- Witness of C3: with requested height 0 and latest height 100 both assemblers fetch the
commit at 100 and return 100, the header assembler fetching the validators at 100 too;
with requested height 150 and latest height 100 both fetch the commit at 150 and
return 150. -/
theorem height_resolution_witness :
    (Call.Commit 100 ∈ (QueryTendermintHeader exampleTendermint (exampleContext 0 100 101)).2 ∧
      Call.Commit 100
        ∈ (QuerySelfConsensusState exampleTypes exampleTendermint 0
            (exampleContext 0 100 101)).2 ∧
      (QueryTendermintHeader exampleTendermint (exampleContext 0 100 101)).1
        = .returned ({ SignedHeader := some ⟨some ⟨100, [100]⟩⟩
                       ValidatorSet := some [100, 1]
                       TrustedHeight := ⟨0, 0⟩
                       TrustedValidators := none }, 100, none) ∧
      (QuerySelfConsensusState exampleTypes exampleTendermint 0 (exampleContext 0 100 101)).1
        = .returned ({ Timestamp := 100, Root := ⟨[100]⟩, NextValidatorsHash := [101, 1] },
            100, none) ∧
      (QueryTendermintHeader exampleTendermint (exampleContext 0 100 101)).2
        = [.GetNode, .ABCIInfo, .Commit 100, .Validators 100 1 10000]) ∧
    (Call.Commit 150 ∈ (QueryTendermintHeader exampleTendermint (exampleContext 150 100 200)).2 ∧
      Call.Commit 150
        ∈ (QuerySelfConsensusState exampleTypes exampleTendermint 0
            (exampleContext 150 100 200)).2 ∧
      (QueryTendermintHeader exampleTendermint (exampleContext 150 100 200)).1
        = .returned ({ SignedHeader := some ⟨some ⟨150, [150]⟩⟩
                       ValidatorSet := some [150, 1]
                       TrustedHeight := ⟨0, 0⟩
                       TrustedValidators := none }, 150, none) ∧
      (QuerySelfConsensusState exampleTypes exampleTendermint 0
          (exampleContext 150 100 200)).1
        = .returned ({ Timestamp := 150, Root := ⟨[150]⟩, NextValidatorsHash := [151, 1] },
            150, none)) :=
  have low := height_resolution exampleTypes exampleTendermint 0 (exampleContext 0 100 101)
    (exampleNode 100 101) _ 100 rfl rfl (Or.inl ⟨rfl, rfl⟩)
  have high := height_resolution exampleTypes exampleTendermint 0 (exampleContext 150 100 200)
    (exampleNode 100 200) _ 150 rfl rfl (Or.inr ⟨by decide, rfl⟩)
  ⟨⟨(low.1 100).mpr rfl, (low.2.1 100).mpr rfl,
      low.2.2.2.2.1 ⟨some ⟨100, [100]⟩⟩ ⟨100, [100, 1], 2, 2⟩ [100, 1] [100, 1]
        rfl rfl rfl rfl,
      low.2.2.2.2.2 ⟨some ⟨100, [100]⟩⟩ ⟨101, [101, 1], 2, 2⟩ ⟨100, [100]⟩ [101, 1] [101, 1]
        rfl rfl rfl rfl rfl,
      rfl⟩,
   ⟨(high.1 150).mpr rfl, (high.2.1 150).mpr rfl,
      high.2.2.2.2.1 ⟨some ⟨150, [150]⟩⟩ ⟨150, [150, 1], 2, 2⟩ [150, 1] [150, 1]
        rfl rfl rfl rfl,
      high.2.2.2.2.2 ⟨some ⟨150, [150]⟩⟩ ⟨151, [151, 1], 2, 2⟩ ⟨150, [150]⟩ [151, 1] [151, 1]
        rfl rfl rfl rfl rfl⟩⟩

/-- Counterexample to C4 as stated, in three cases where every backend call succeeds.
At the resolved height `2 ^ 63 - 1` the validators are requested at `-2 ^ 63`, the wrapped
`int64` sum, not at `2 ^ 63`.  At height 50, over a node that serves a validator with voting
power zero, and over a node whose commit carries a nil header, the call panics and returns
no snapshot. -/
theorem self_consensus_wraps_or_panics :
    (QuerySelfConsensusState exampleTypes exampleTendermint 0
        (exampleContext 9223372036854775807 100 9223372036854775807)
      = (.returned ({ Timestamp := 9223372036854775807
                      Root := ⟨[255]⟩
                      NextValidatorsHash := [0, 1] }, 9223372036854775807, none),
          [.GetNode, .ABCIInfo, .Commit 9223372036854775807,
            .Validators (-9223372036854775808) 1 10000]) ∧
      Call.Validators (9223372036854775807 + 1) 1 10000 ∉
        (QuerySelfConsensusState exampleTypes exampleTendermint 0
          (exampleContext 9223372036854775807 100 9223372036854775807)).2) ∧
    QuerySelfConsensusState exampleTypes exampleTendermint 0 (zeroPowerContext 50)
      = (.panicked, [.GetNode, .ABCIInfo, .Commit 50, .Validators 51 1 10000]) ∧
    QuerySelfConsensusState exampleTypes exampleTendermint 0 (nilHeaderContext 50)
      = (.panicked, [.GetNode, .ABCIInfo, .Commit 50, .Validators 51 1 10000]) := by
  refine ⟨⟨rfl, ?_⟩, rfl, rfl⟩
  decide

/-- C4, amended: for every resolved `int64` height `H` below `2 ^ 63 - 1` at which all
backend calls succeed, the commit carries a header, and neither building the validator
set from the validators returned for `H + 1` nor hashing it panics,
`QuerySelfConsensusState` fetches the commit at `H` and then the validators at `H + 1`
(page 1, page size 10000), never at `H`, and returns, with height `H`, the state whose
timestamp is the time of that commit, whose root is the Merkle root of its app hash and
whose next-validators hash is the hash of the validator set built from the validators
returned for `H + 1`. -/
theorem self_consensus_assembly (lib : Types σ κ) (tm : Tendermint Cm Hd V VS PSH PVS T)
    (zeroTime : T) (clientCtx : Context σ κ Cm V) (node : Node Cm V) (info : ResultABCIInfo)
    (commit : Cm) (nextVals : ResultValidators V) (header : Hd) (valset : VS) (hash : Bytes)
    (H : Int)
    (hnode : clientCtx.GetNode = .ok node) (hinfo : node.ABCIInfo = .ok info)
    (hH : H = if clientCtx.Height ≠ 0 then clientCtx.Height
      else info.Response.LastBlockHeight)
    (hlo : -(2 ^ 63) ≤ H) (hhi : H < 2 ^ 63 - 1)
    (hcommit : node.Commit H = .ok commit)
    (hvals : node.Validators (H + 1) 1 10000 = .ok nextVals)
    (hheader : tm.Header commit = some header)
    (hset : tm.NewValidatorSet nextVals.Validators = some valset)
    (hhash : tm.ValidatorSetHash valset = some hash) :
    QuerySelfConsensusState lib tm zeroTime clientCtx
      = (.returned ({ Timestamp := tm.Time header
                      Root := lib.NewMerkleRoot (tm.AppHash header)
                      NextValidatorsHash := hash }, H, none),
          [.GetNode, .ABCIInfo, .Commit H, .Validators (H + 1) 1 10000]) ∧
    Call.Validators H 1 10000 ∉ (QuerySelfConsensusState lib tm zeroTime clientCtx).2 := by
  have hw := wrapInt64_succ H hlo hhi
  have key : QuerySelfConsensusState lib tm zeroTime clientCtx
      = (.returned ({ Timestamp := tm.Time header
                      Root := lib.NewMerkleRoot (tm.AppHash header)
                      NextValidatorsHash := hash }, H, none),
          [.GetNode, .ABCIInfo, .Commit H, .Validators (H + 1) 1 10000]) := by
    subst hH
    unfold QuerySelfConsensusState
    simp only [hnode, hinfo, hcommit, hw, hvals, hheader, hset, hhash]
  refine ⟨key, ?_⟩
  rw [key]
  simp

/-- Witness of C4, amended: at height 50 the commit is read at 50 and the validators
at 51. -/
theorem self_consensus_assembly_witness :
    QuerySelfConsensusState exampleTypes exampleTendermint 0 (exampleContext 50 100 51)
      = (.returned ({ Timestamp := 50, Root := ⟨[50]⟩, NextValidatorsHash := [51, 1] },
            50, none),
          [.GetNode, .ABCIInfo, .Commit 50, .Validators 51 1 10000]) ∧
    Call.Validators 50 1 10000 ∉
      (QuerySelfConsensusState exampleTypes exampleTendermint 0 (exampleContext 50 100 51)).2 :=
  self_consensus_assembly exampleTypes exampleTendermint 0 (exampleContext 50 100 51)
    (exampleNode 100 51) _ ⟨some ⟨50, [50]⟩⟩ ⟨51, [51, 1], 2, 2⟩ ⟨50, [50]⟩ [51, 1] [51, 1] 50
    rfl rfl rfl (by decide) (by decide) rfl rfl rfl rfl rfl

/-- C5: for the resolved height `H`, when all backend calls and the conversion of the
validator set succeed, `QueryTendermintHeader` fetches the commit at `H` and then the
validators at the same `H` as page 1 with page size 10000, and returns, with height `H`,
the header whose signed header is the fetched commit in proto form and whose validator
set is the proto form of the set built from the fetched validators; the trusted fields are
left at their zero values. -/
theorem header_assembly (tm : Tendermint Cm Hd V VS PSH PVS T)
    (clientCtx : Context σ κ Cm V)
    (node : Node Cm V) (info : ResultABCIInfo) (commit : Cm)
    (validators : ResultValidators V) (valset : VS) (protoValset : PVS) (H : Int)
    (hnode : clientCtx.GetNode = .ok node) (hinfo : node.ABCIInfo = .ok info)
    (hH : H = if clientCtx.Height ≠ 0 then clientCtx.Height
      else info.Response.LastBlockHeight)
    (hcommit : node.Commit H = .ok commit)
    (hvals : node.Validators H 1 10000 = .ok validators)
    (hset : tm.NewValidatorSet validators.Validators = some valset)
    (hproto : tm.ValidatorSetToProto valset = .ok protoValset) :
    QueryTendermintHeader tm clientCtx
      = (.returned ({ SignedHeader := some (tm.CommitToProto commit)
                      ValidatorSet := some protoValset
                      TrustedHeight := ⟨0, 0⟩
                      TrustedValidators := none }, H, none),
          [.GetNode, .ABCIInfo, .Commit H, .Validators H 1 10000]) := by
  subst hH
  unfold QueryTendermintHeader
  simp only [hnode, hinfo, hcommit, hvals, hset, hproto]

/-- Witness of C5: with the latest height 100 resolved, commit and validators are both
read at 100. -/
theorem header_assembly_witness :
    QueryTendermintHeader exampleTendermint (exampleContext 0 100 100)
      = (.returned ({ SignedHeader := some ⟨some ⟨100, [100]⟩⟩
                      ValidatorSet := some [100, 1]
                      TrustedHeight := ⟨0, 0⟩
                      TrustedValidators := none }, 100, none),
          [.GetNode, .ABCIInfo, .Commit 100, .Validators 100 1 10000]) :=
  header_assembly exampleTendermint (exampleContext 0 100 100) (exampleNode 100 100) _
    ⟨some ⟨100, [100]⟩⟩ ⟨100, [100, 1], 2, 2⟩ [100, 1] [100, 1] 100 rfl rfl rfl rfl rfl rfl rfl

/-- C6: in both assemblers a failing backend call ends the operation with exactly the
error of that call, the empty header or empty consensus state and height 0, and the calls
issued are those up to and including the failing one: the node lookup alone; the node
lookup and the status; these and the commit at the resolved height; these and the
validators (at the resolved height for the header, at the next `int64` height for the
consensus state). -/
theorem fail_fast_assembly (lib : Types σ κ) (tm : Tendermint Cm Hd V VS PSH PVS T)
    (zeroTime : T) (clientCtx : Context σ κ Cm V) (err : Error) :
    (clientCtx.GetNode = .error err →
      QueryTendermintHeader tm clientCtx
        = (.returned (Header.empty, 0, some err), [.GetNode]) ∧
      QuerySelfConsensusState lib tm zeroTime clientCtx
        = (.returned (ConsensusState.empty zeroTime, 0, some err), [.GetNode])) ∧
    (∀ node, clientCtx.GetNode = .ok node → node.ABCIInfo = .error err →
      QueryTendermintHeader tm clientCtx
        = (.returned (Header.empty, 0, some err), [.GetNode, .ABCIInfo]) ∧
      QuerySelfConsensusState lib tm zeroTime clientCtx
        = (.returned (ConsensusState.empty zeroTime, 0, some err), [.GetNode, .ABCIInfo])) ∧
    (∀ node info H, clientCtx.GetNode = .ok node → node.ABCIInfo = .ok info →
      H = (if clientCtx.Height ≠ 0 then clientCtx.Height
        else info.Response.LastBlockHeight) →
      node.Commit H = .error err →
      QueryTendermintHeader tm clientCtx
        = (.returned (Header.empty, 0, some err), [.GetNode, .ABCIInfo, .Commit H]) ∧
      QuerySelfConsensusState lib tm zeroTime clientCtx
        = (.returned (ConsensusState.empty zeroTime, 0, some err),
            [.GetNode, .ABCIInfo, .Commit H])) ∧
    (∀ node info H commit, clientCtx.GetNode = .ok node → node.ABCIInfo = .ok info →
      H = (if clientCtx.Height ≠ 0 then clientCtx.Height
        else info.Response.LastBlockHeight) →
      node.Commit H = .ok commit →
      (node.Validators H 1 10000 = .error err →
        QueryTendermintHeader tm clientCtx
          = (.returned (Header.empty, 0, some err),
              [.GetNode, .ABCIInfo, .Commit H, .Validators H 1 10000])) ∧
      (node.Validators (wrapInt64 (H + 1)) 1 10000 = .error err →
        QuerySelfConsensusState lib tm zeroTime clientCtx
          = (.returned (ConsensusState.empty zeroTime, 0, some err),
              [.GetNode, .ABCIInfo, .Commit H,
                .Validators (wrapInt64 (H + 1)) 1 10000]))) := by
  refine ⟨?_, ?_, ?_, ?_⟩
  · intro hnode
    constructor
    · unfold QueryTendermintHeader; simp only [hnode]
    · unfold QuerySelfConsensusState; simp only [hnode]
  · intro node hnode hinfo
    constructor
    · unfold QueryTendermintHeader; simp only [hnode, hinfo]
    · unfold QuerySelfConsensusState; simp only [hnode, hinfo]
  · intro node info H hnode hinfo hH hcommit
    subst hH
    constructor
    · unfold QueryTendermintHeader; simp only [hnode, hinfo, hcommit]
    · unfold QuerySelfConsensusState; simp only [hnode, hinfo, hcommit]
  · intro node info H commit hnode hinfo hH hcommit
    subst hH
    constructor
    · intro hvals
      unfold QueryTendermintHeader; simp only [hnode, hinfo, hcommit, hvals]
    · intro hvals
      unfold QuerySelfConsensusState; simp only [hnode, hinfo, hcommit, hvals]

/-- Witness of C6: at height 50 the node serves the commit at 50 but no validators at 51,
and `QuerySelfConsensusState` fails with the error of the validators call after having
fetched the commit at 50. -/
theorem fail_fast_assembly_witness :
    QuerySelfConsensusState exampleTypes exampleTendermint 0 (exampleContext 50 100 50)
      = (.returned (ConsensusState.empty 0, 0,
            some (.Backend "validators: height not available")),
          [.GetNode, .ABCIInfo, .Commit 50, .Validators 51 1 10000]) :=
  ((fail_fast_assembly exampleTypes exampleTendermint 0 (exampleContext 50 100 50)
    (.Backend "validators: height not available")).2.2.2 (exampleNode 100 50) _ 50
    ⟨some ⟨50, [50]⟩⟩ rfl rfl rfl rfl).2 rfl

/-- C10: with an explicit non-zero requested height both assemblers still query the status
of the node first; when that call fails they return its error with the empty result and
height 0, and the node lookup and the status are the only calls issued, so neither the
commit nor the validators are fetched. -/
theorem status_failure_with_explicit_height (lib : Types σ κ)
    (tm : Tendermint Cm Hd V VS PSH PVS T) (zeroTime : T) (clientCtx : Context σ κ Cm V)
    (node : Node Cm V) (err : Error) (hheight : clientCtx.Height ≠ 0)
    (hnode : clientCtx.GetNode = .ok node) (hinfo : node.ABCIInfo = .error err) :
    clientCtx.Height ≠ 0 ∧
    QueryTendermintHeader tm clientCtx
      = (.returned (Header.empty, 0, some err), [.GetNode, .ABCIInfo]) ∧
    QuerySelfConsensusState lib tm zeroTime clientCtx
      = (.returned (ConsensusState.empty zeroTime, 0, some err), [.GetNode, .ABCIInfo]) ∧
    (∀ h, Call.Commit h ∉ (QueryTendermintHeader tm clientCtx).2 ∧
      Call.Commit h ∉ (QuerySelfConsensusState lib tm zeroTime clientCtx).2) ∧
    (∀ h page count, Call.Validators h page count ∉ (QueryTendermintHeader tm clientCtx).2 ∧
      Call.Validators h page count ∉ (QuerySelfConsensusState lib tm zeroTime clientCtx).2) := by
  have h1 : QueryTendermintHeader tm clientCtx
      = (.returned (Header.empty, 0, some err), [.GetNode, .ABCIInfo]) := by
    unfold QueryTendermintHeader; simp only [hnode, hinfo]
  have h2 : QuerySelfConsensusState lib tm zeroTime clientCtx
      = (.returned (ConsensusState.empty zeroTime, 0, some err), [.GetNode, .ABCIInfo]) := by
    unfold QuerySelfConsensusState; simp only [hnode, hinfo]
  refine ⟨hheight, h1, h2, ?_, ?_⟩
  · intro h; rw [h1, h2]; simp
  · intro h page count; rw [h1, h2]; simp

/-- Witness of C10: with requested height 7 and a failing status call, both assemblers
stop after the status call. -/
theorem status_failure_with_explicit_height_witness :
    QueryTendermintHeader exampleTendermint (statusFailingContext 7)
      = (.returned (Header.empty, 0, some (.Backend "abci_info: unavailable")),
          [.GetNode, .ABCIInfo]) ∧
    QuerySelfConsensusState exampleTypes exampleTendermint 0 (statusFailingContext 7)
      = (.returned (ConsensusState.empty 0, 0, some (.Backend "abci_info: unavailable")),
          [.GetNode, .ABCIInfo]) :=
  ⟨(status_failure_with_explicit_height exampleTypes exampleTendermint 0
      (statusFailingContext 7) _ _ (by decide) rfl rfl).2.1,
   (status_failure_with_explicit_height exampleTypes exampleTendermint 0
      (statusFailingContext 7) _ _ (by decide) rfl rfl).2.2.1⟩

end AssemblerTheorems

section StateCodecTheorems

variable {σ κ Cm V : Type}

/-- Counterexample to C9 as stated: over the example wrapper codec the store holds the
marshalled interface, both proven queries succeed, and the payload of the returned state
is the encoding of the decoded message, `[8, 5]` and `[8, 6]`, not the seven-byte value
read from the store. -/
theorem abci_payload_is_not_store_value :
    (wrapperContext.QueryTendermintProof (wrapperTypes.FullClientStateKey "a")
        = .ok ([10, 1, 1, 18, 2, 8, 5], [7, 7], ⟨0, 42⟩) ∧
      (QueryClientStateABCI wrapperTypes wrapperContext "a").1
        = (some { ClientState := some ⟨"/client", [8, 5]⟩, Proof := [7, 7],
                  ProofHeight := ⟨0, 42⟩ }, none) ∧
      ([8, 5] : Bytes) ≠ [10, 1, 1, 18, 2, 8, 5]) ∧
    (wrapperContext.QueryTendermintProof (wrapperTypes.FullConsensusStateKey "a" ⟨0, 5⟩)
        = .ok ([10, 1, 2, 18, 2, 8, 6], [7, 7], ⟨0, 42⟩) ∧
      (QueryConsensusStateABCI wrapperTypes wrapperContext "a" ⟨0, 5⟩).1
        = (some { ConsensusState := some ⟨"/consensus", [8, 6]⟩, Proof := [7, 7],
                  ProofHeight := ⟨0, 42⟩ }, none) ∧
      ([8, 6] : Bytes) ≠ [10, 1, 2, 18, 2, 8, 6]) := by
  refine ⟨⟨rfl, rfl, ?_⟩, rfl, rfl, ?_⟩ <;> decide

/-- C9, amended: on the proven path the codec is applied as pack after unpack to the store
value.  Whenever `QueryClientStateABCI` or `QueryConsensusStateABCI` succeeds on the value
read from the store, that value is not empty, it decoded to a state, packing that state
succeeded, and the response carries exactly that packed state with the proof and proof
height of the read; so the payload of the response is the payload that packing gives the
decoded state, whether or not it equals the store value. -/
theorem abci_state_is_pack_of_unpack (lib : Types σ κ) (clientCtx : Context σ κ Cm V)
    (clientID : String) (height : Height) (value proofBz : Bytes) (proofHeight : Height) :
    (∀ resp,
      clientCtx.QueryTendermintProof (lib.FullClientStateKey clientID)
        = .ok (value, proofBz, proofHeight) →
      (QueryClientStateABCI lib clientCtx clientID).1 = (some resp, none) →
      value ≠ [] ∧
      ∃ clientState packed,
        clientCtx.UnmarshalClientState value = .ok clientState ∧
        lib.PackClientState clientState = .ok packed ∧
        resp = { ClientState := some packed, Proof := proofBz,
                 ProofHeight := proofHeight }) ∧
    (∀ resp,
      clientCtx.QueryTendermintProof (lib.FullConsensusStateKey clientID height)
        = .ok (value, proofBz, proofHeight) →
      (QueryConsensusStateABCI lib clientCtx clientID height).1 = (some resp, none) →
      value ≠ [] ∧
      ∃ cs packed,
        clientCtx.UnmarshalConsensusState value = .ok cs ∧
        lib.PackConsensusState cs = .ok packed ∧
        resp = { ConsensusState := some packed, Proof := proofBz,
                 ProofHeight := proofHeight }) := by
  constructor
  · intro resp hread hres
    unfold QueryClientStateABCI at hres
    simp only [hread] at hres
    split at hres
    · simp at hres
    · rename_i hne
      refine ⟨by simpa using hne, ?_⟩
      split at hres
      · simp at hres
      · rename_i clientState hdec
        split at hres
        · simp at hres
        · rename_i packed hpack
          refine ⟨clientState, packed, hdec, hpack, ?_⟩
          simp only [NewQueryClientStateResponse, Prod.mk.injEq, Option.some.injEq,
            and_true] at hres
          exact hres.symm
  · intro resp hread hres
    unfold QueryConsensusStateABCI at hres
    simp only [hread] at hres
    split at hres
    · simp at hres
    · rename_i hne
      refine ⟨by simpa using hne, ?_⟩
      split at hres
      · simp at hres
      · rename_i cs hdec
        split at hres
        · simp at hres
        · rename_i packed hpack
          refine ⟨cs, packed, hdec, hpack, ?_⟩
          simp only [NewQueryConsensusStateResponse, Prod.mk.injEq, Option.some.injEq,
            and_true] at hres
          exact hres.symm

/-- Witness of C9, amended: over the example wrapper codec both proven queries succeed
with the packed decoded state. -/
theorem abci_state_is_pack_of_unpack_witness :
    (([10, 1, 1, 18, 2, 8, 5] : Bytes) ≠ [] ∧
      ∃ clientState packed,
        wrapperContext.UnmarshalClientState [10, 1, 1, 18, 2, 8, 5] = .ok clientState ∧
        wrapperTypes.PackClientState clientState = .ok packed ∧
        ({ ClientState := some ⟨"/client", [8, 5]⟩, Proof := [7, 7],
           ProofHeight := ⟨0, 42⟩ } : QueryClientStateResponse)
          = { ClientState := some packed, Proof := [7, 7], ProofHeight := ⟨0, 42⟩ }) ∧
    (([10, 1, 2, 18, 2, 8, 6] : Bytes) ≠ [] ∧
      ∃ cs packed,
        wrapperContext.UnmarshalConsensusState [10, 1, 2, 18, 2, 8, 6] = .ok cs ∧
        wrapperTypes.PackConsensusState cs = .ok packed ∧
        ({ ConsensusState := some ⟨"/consensus", [8, 6]⟩, Proof := [7, 7],
           ProofHeight := ⟨0, 42⟩ } : QueryConsensusStateResponse)
          = { ConsensusState := some packed, Proof := [7, 7], ProofHeight := ⟨0, 42⟩ }) :=
  ⟨(abci_state_is_pack_of_unpack wrapperTypes wrapperContext "a" ⟨0, 5⟩
      [10, 1, 1, 18, 2, 8, 5] [7, 7] ⟨0, 42⟩).1 _ rfl rfl,
   (abci_state_is_pack_of_unpack wrapperTypes wrapperContext "a" ⟨0, 5⟩
      [10, 1, 2, 18, 2, 8, 6] [7, 7] ⟨0, 42⟩).2 _ rfl rfl⟩

end StateCodecTheorems

end Utils
